import Mathlib

/-!
Shallow embedding of the click-analytics subsystem of the CMPE-363 repository
(analytics-service). Sources embedded:
  - src/services/analytics-service/src/utils/geolocation.js (lookupIP, isPrivateIP)
  - src/services/analytics-service/src/middleware (requireAuth, allowInternalService,
    verifyInternalApiKey)
  - src/services/analytics-service/src/routes.js (track, stats, history, daily, geo)
Strings model JS strings; JS `null`/`undefined` is `Option.none`; JS falsiness of a
string is emptiness; numbers that the claims touch are modelled as `Int`
(`parseInt` returns `Option Int`, `none` standing for `NaN`).
-/

namespace Analytics

/-! ### Kernel-reducible string primitives
`String.splitOn`, `String.trim`, `String.toLower` and `String.startsWith` do
not reduce inside the kernel, so the embedding uses its own character-list
implementations of the JS string operations the handlers perform. -/

/-- Emptiness of a string, on its character list. -/
def strIsEmpty (s : String) : Bool := s.data.isEmpty

/-- `p` is a prefix of `l`, as lists of characters. -/
def startsWithL (p l : List Char) : Bool :=
  match p, l with
  | [], _ => true
  | _ :: _, [] => false
  | a :: ps, c :: cs => a == c && startsWithL ps cs

/-- JS `s.startsWith(p)`. -/
def strStartsWith (s p : String) : Bool := startsWithL p.data s.data

/-- JS `s.split(sep)` for a one-character separator: chunks between
occurrences, the empty string splitting to `[""]`. -/
def splitChar (sep : Char) : List Char → List (List Char)
  | [] => [[]]
  | c :: cs =>
    let r := splitChar sep cs
    if c == sep then [] :: r
    else
      match r with
      | [] => [[c]]
      | h :: t => (c :: h) :: t

/-- Drop leading and trailing whitespace (JS `s.trim()` on the characters the
handlers meet). -/
def trimChars (l : List Char) : List Char :=
  ((l.dropWhile Char.isWhitespace).reverse.dropWhile Char.isWhitespace).reverse

/-- ASCII lower-casing of one character (what `toLowerCase` does on the
addresses and header values involved). -/
def lowerChar (c : Char) : Char :=
  if ('A' ≤ c && c ≤ 'Z') then Char.ofNat (c.toNat + 32) else c

/-- JS `s.toLowerCase()` (ASCII). -/
def strToLower (s : String) : String := ⟨s.data.map lowerChar⟩

/-- JS `x || y` on nullable strings: an absent or empty string is falsy. -/
def jsOrStr (a b : Option String) : Option String :=
  match a with
  | none => b
  | some s => if strIsEmpty s then b else some s

/-- JS falsiness test for a nullable string (`!x` truth): absent or empty. -/
def jsFalsy : Option String → Bool
  | none => true
  | some s => strIsEmpty s

/-- `v || null` for a nullable string-valued field: empty string collapses to null. -/
def jsStrOrNull (a : Option String) : Option String :=
  match a with
  | none => none
  | some s => if strIsEmpty s then none else some s

/-- `v || null` for a nullable number-valued field: 0 is falsy and collapses to null. -/
def jsIntOrNull (a : Option Int) : Option Int :=
  match a with
  | none => none
  | some v => if v = 0 then none else some v

/-- Decimal digit run → value, `none` when the run is empty (the NaN case). -/
def digitsToNat (l : List Char) : Option Nat :=
  let ds := l.takeWhile Char.isDigit
  if ds.isEmpty then none
  else some (ds.foldl (fun a c => a * 10 + (c.toNat - 48)) 0)

/-- JS `parseInt(s, 10)`: skip leading whitespace, optional sign, leading decimal
digits; `none` models `NaN` (no digits). Trailing garbage is ignored. -/
def jsParseInt (s : String) : Option Int :=
  match trimChars s.data with
  | '-' :: rest => (digitsToNat rest).map (fun n => -(n : Int))
  | '+' :: rest => (digitsToNat rest).map (fun n => (n : Int))
  | l => (digitsToNat l).map (fun n => (n : Int))

/-! ## Geolocation resolver (utils/geolocation.js) -/

/-- The raw fields `lookupIP` reads off a MaxMind city response
(`response.country?.names?.en`, `response.country?.isoCode`,
`response.city?.names?.en`, `response.subdivisions?.[0]?.names?.en`,
`response.location?.latitude/longitude/timeZone`), each possibly absent. -/
structure CityResponse where
  countryNameEn : Option String
  countryIsoCode : Option String
  cityNameEn : Option String
  subdivisionNameEn : Option String
  locLatitude : Option Int
  locLongitude : Option Int
  locTimeZone : Option String
deriving Repr, DecidableEq

/-- Errors `reader.city` can throw; `addressNotFound` is `AddressNotFoundError`. -/
inductive GeoErr where
  | addressNotFound
  | other (msg : String)
deriving Repr, DecidableEq

/-- The structure `lookupIP` returns on a hit: each field individually nullable. -/
structure GeoData where
  country : Option String
  countryCode : Option String
  city : Option String
  region : Option String
  latitude : Option Int
  longitude : Option Int
  timezone : Option String
deriving Repr, DecidableEq

/-- The sixteen prefixes matched by `/^172\.(1[6-9]|2[0-9]|3[0-1])\./`. -/
def ranges172 : List String :=
  ["172.16.", "172.17.", "172.18.", "172.19.", "172.20.", "172.21.", "172.22.",
   "172.23.", "172.24.", "172.25.", "172.26.", "172.27.", "172.28.", "172.29.",
   "172.30.", "172.31."]

/-- `isPrivateIP` from geolocation.js: the regex alternatives, in source order. -/
def isPrivateIP (ip : String) : Bool :=
  strIsEmpty ip ||
  strStartsWith ip "10." ||
  ranges172.any (fun p => strStartsWith ip p) ||
  strStartsWith ip "192.168." ||
  strStartsWith ip "127." ||
  strToLower ip == "localhost" ||
  ip == "::1" ||
  strStartsWith (strToLower ip) "fe80:"

/-- `lookupIP` from geolocation.js. `reader` is the GeoIP reader (`none` when the
database was not loaded — disabled state); its `city` call is modelled as a
function into `Except GeoErr CityResponse`, the `error` case standing for a
thrown exception, which the `try/catch` turns into a `null` return. Each
extracted field goes through `|| null`. -/
def lookupIP (reader : Option (String → Except GeoErr CityResponse))
    (ipAddress : Option String) : Option GeoData :=
  match reader with
  | none => none
  | some city =>
    match ipAddress with
    | none => none
    | some ip =>
      if strIsEmpty ip then none
      else if isPrivateIP ip then none
      else
        match city ip with
        | .error _ => none
        | .ok r =>
          some { country := jsStrOrNull r.countryNameEn
                 countryCode := jsStrOrNull r.countryIsoCode
                 city := jsStrOrNull r.cityNameEn
                 region := jsStrOrNull r.subdivisionNameEn
                 latitude := jsIntOrNull r.locLatitude
                 longitude := jsIntOrNull r.locLongitude
                 timezone := jsStrOrNull r.locTimeZone }

/-! ## Access control (middleware: requireAuth, allowInternalService) -/

/-- Outcome of `jwt.verify(token, secret)`: success with the decoded `userId`,
or a thrown `JsonWebTokenError` / `TokenExpiredError` / other exception. -/
inductive VerifyResult where
  | ok (userId : String)
  | invalidToken
  | expired
  | otherError
deriving Repr, DecidableEq

/-- Result of an auth middleware: proceed with the decoded user attached, or a
terminal JSON error response with its HTTP status. -/
inductive AuthOutcome where
  | ok (userId : String)
  | reject (status : Nat) (error : String)
deriving Repr, DecidableEq

/-- The token `requireAuth` extracts: `authHeader.split(' ')[1]`. -/
def authToken (h : String) : String :=
  ⟨(splitChar ' ' h.data).getD 1 []⟩

/-- `requireAuth` from the auth middleware. `verify` abstracts
`jwt.verify(·, jwtSecret)`. -/
def requireAuth (jwtSecret : String) (verify : String → VerifyResult)
    (authHeader : Option String) : AuthOutcome :=
  match authHeader with
  | none => .reject 401 "Authentication required"
  | some h =>
    if !strStartsWith h "Bearer " then .reject 401 "Authentication required"
    else
      let token := authToken h
      if strIsEmpty jwtSecret then .reject 500 "Server configuration error"
      else
        match verify token with
        | .ok uid => .ok uid
        | .invalidToken => .reject 401 "Invalid token"
        | .expired => .reject 401 "Token expired"
        | .otherError => .reject 500 "Authentication failed"

/-- `verifyInternalApiKey`: `apiKey && apiKey === config.internalApiKey`. -/
def verifyInternalApiKey (internalApiKey : String) (header : Option String) : Bool :=
  match header with
  | none => false
  | some k => !strIsEmpty k && k == internalApiKey

/-- Outcome of `allowInternalService`: request marked internal, or the
`requireAuth` outcome. -/
inductive AccessOutcome where
  | internal
  | user (userId : String)
  | reject (status : Nat) (error : String)
deriving Repr, DecidableEq

/-- The incoming HTTP request headers and transport peer address that the
embedded handlers read. `remoteAddress` is the socket peer. -/
structure Request where
  authorization : Option String
  xInternalApiKey : Option String
  xForwardedFor : Option String
  userAgent : Option String
  referer : Option String
  remoteAddress : Option String
deriving Repr, DecidableEq

/-- `allowInternalService`: valid internal key marks the request internal;
otherwise fall through to `requireAuth`. -/
def allowInternalService (internalApiKey jwtSecret : String)
    (verify : String → VerifyResult) (req : Request) : AccessOutcome :=
  if verifyInternalApiKey internalApiKey req.xInternalApiKey then .internal
  else
    match requireAuth jwtSecret verify req.authorization with
    | .ok uid => .user uid
    | .reject s m => .reject s m

/-! ## Client address resolution (track route, Express `trust proxy` = true) -/

/-- First entry of a forwarded-for header value, trimmed (how Express's
proxy-addr extracts the client-most address when every proxy is trusted). -/
def firstForwarded (h : String) : String :=
  ⟨trimChars ((splitChar ',' h.data).headD [])⟩

/-- Express `req.ip` under `app.set('trust proxy', true)` (index.js): the first
entry of `X-Forwarded-For` when the header carries one, else the socket peer
address. -/
def expressReqIp (xff remote : Option String) : Option String :=
  match xff with
  | none => remote
  | some h =>
    let e := firstForwarded h
    if strIsEmpty e then remote else some e

/-- `req.ip || req.headers['x-forwarded-for']?.split(',')[0] || null`
from the track route. -/
def trackIpAddress (req : Request) : Option String :=
  jsOrStr (expressReqIp req.xForwardedFor req.remoteAddress)
    (jsOrStr (req.xForwardedFor.map
      (fun h => (⟨(splitChar ',' h.data).getD 0 []⟩ : String))) none)

/-! ## Click store (models/Click, MongoDB collection as a list) -/

/-- A persisted click record (models/Click). Timestamps are epoch
milliseconds. -/
structure Click where
  shortCode : String
  originalUrl : String
  timestamp : Int
  userAgent : Option String
  referer : Option String
  ipAddress : Option String
  country : Option String
  countryCode : Option String
  city : Option String
  region : Option String
  latitude : Option Int
  longitude : Option Int
  timezone : Option String
deriving Repr, DecidableEq

/-- Insert a click into a list kept newest-first by timestamp. -/
def insertByTsDesc (c : Click) : List Click → List Click
  | [] => [c]
  | x :: xs =>
    if c.timestamp ≥ x.timestamp then c :: x :: xs
    else x :: insertByTsDesc c xs

/-- `.sort({ timestamp: -1 })`: order newest-first. -/
def sortByTsDesc (l : List Click) : List Click :=
  l.foldr insertByTsDesc []

/-- MongoDB cursor `.limit(n)`: 0 means no limit; a negative value behaves as
its absolute value (single batch). -/
def mongoLimit (n : Int) (l : List α) : List α :=
  if n = 0 then l else l.take n.natAbs

/-- The projection `.select('timestamp userAgent referer country city')`. -/
structure ClickProj where
  timestamp : Int
  userAgent : Option String
  referer : Option String
  country : Option String
  city : Option String
deriving Repr, DecidableEq

def projectClick (c : Click) : ClickProj :=
  { timestamp := c.timestamp, userAgent := c.userAgent, referer := c.referer
    country := c.country, city := c.city }

/-- `Click.countDocuments({shortCode})`. -/
def countForCode (store : List Click) (code : String) : Nat :=
  store.countP (fun c => c.shortCode == code)

/-- `Click.countDocuments({shortCode, timestamp: {$gte: since}})`. -/
def countForCodeSince (store : List Click) (code : String) (since : Int) : Nat :=
  store.countP (fun c => c.shortCode == code && since ≤ c.timestamp)

/-! ## Track route (POST /api/analytics/track) -/

/-- The JSON request body fields the track route destructures. -/
structure TrackBody where
  short_code : Option String
  original_url : Option String
deriving Repr, DecidableEq

/-- The `new Click({...})` construction in the track route: geolocation fields
each go through `geoData?.field || null`. `sc`/`ou` are the validated body
fields, `now` the creation instant. -/
def buildClick (sc ou : String) (req : Request) (geoData : Option GeoData)
    (now : Int) : Click :=
  { shortCode := sc
    originalUrl := ou
    timestamp := now
    userAgent := jsStrOrNull req.userAgent
    referer := jsStrOrNull req.referer
    ipAddress := trackIpAddress req
    country := jsStrOrNull (geoData.bind (fun g => g.country))
    countryCode := jsStrOrNull (geoData.bind (fun g => g.countryCode))
    city := jsStrOrNull (geoData.bind (fun g => g.city))
    region := jsStrOrNull (geoData.bind (fun g => g.region))
    latitude := jsIntOrNull (geoData.bind (fun g => g.latitude))
    longitude := jsIntOrNull (geoData.bind (fun g => g.longitude))
    timezone := jsStrOrNull (geoData.bind (fun g => g.timezone)) }

/-- Track route response: 201 with the saved record, or a JSON error. -/
inductive TrackResult where
  | created (click : Click)
  | err (status : Nat) (error : String)
deriving Repr, DecidableEq

/-- The track route handler body (after `allowInternalService` and the rate
limiter passed): validation, IP resolution, geolocation lookup, store append.
Returns the response and the resulting store. A successful save is modelled
(persistence failure is the external 500 path). -/
def trackHandler (reader : Option (String → Except GeoErr CityResponse))
    (req : Request) (body : TrackBody) (now : Int) (store : List Click) :
    TrackResult × List Click :=
  if jsFalsy body.short_code || jsFalsy body.original_url then
    (.err 400 "short_code and original_url are required", store)
  else
    let sc := body.short_code.getD ""
    let ou := body.original_url.getD ""
    let geoData := lookupIP reader (trackIpAddress req)
    let click := buildClick sc ou req geoData now
    (.created click, store ++ [click])

/-! ## Stats route (GET /api/analytics/:shortCode) -/

/-- Stats route response: the counters payload (HTTP 200) or a JSON error. -/
inductive StatsResult where
  | ok (shortCode : String) (totalClicks last24Hours last7Days : Nat)
      (lastClickAt : Option Int)
  | err (status : Nat) (error : String)
deriving Repr, DecidableEq

/-- Milliseconds in 24 hours and in 7 days. -/
def ms24h : Int := 24 * 60 * 60 * 1000
def ms7d : Int := 7 * 24 * 60 * 60 * 1000

/-- The stats route: guarded by `allowInternalService`, then the four store
queries. `lastClickAt` is `findOne().sort({timestamp:-1}).timestamp`. -/
def statsRoute (internalApiKey jwtSecret : String)
    (verify : String → VerifyResult) (req : Request) (store : List Click)
    (now : Int) (code : String) : StatsResult :=
  match allowInternalService internalApiKey jwtSecret verify req with
  | .reject s m => .err s m
  | _ =>
    let totalClicks := countForCode store code
    let last24Hours := countForCodeSince store code (now - ms24h)
    let last7Days := countForCodeSince store code (now - ms7d)
    let lastClick := (sortByTsDesc (store.filter (fun c => c.shortCode == code))).head?
    .ok code totalClicks last24Hours last7Days (lastClick.map (fun c => c.timestamp))

/-! ## History route (GET /api/analytics/:shortCode/history) -/

/-- History route response: the page payload (HTTP 200) or a JSON error. -/
inductive HistoryResult where
  | ok (shortCode : String) (total : Nat) (limit offset : Int)
      (clicks : List ClickProj)
  | err (status : Nat) (error : String)
deriving Repr, DecidableEq

/-- `const { limit = 100 } = req.query` followed by `parseInt(limit, 10)`. -/
def historyParsedLimit (limitQ : Option String) : Option Int :=
  match limitQ with
  | none => some 100
  | some s => jsParseInt s

/-- `const { offset = 0 } = req.query` followed by `parseInt(offset, 10)`. -/
def historyParsedOffset (offsetQ : Option String) : Option Int :=
  match offsetQ with
  | none => some 0
  | some s => jsParseInt s

/-- The history route: `requireAuth`, then
`cappedLimit = Math.min(parseInt(limit, 10), 100)` and the paged query. A `NaN`
limit/offset or a negative offset makes the store query throw; the handler's
`catch` answers 500. -/
def historyRoute (jwtSecret : String) (verify : String → VerifyResult)
    (req : Request) (store : List Click) (code : String)
    (limitQ offsetQ : Option String) : HistoryResult :=
  match requireAuth jwtSecret verify req.authorization with
  | .reject s m => .err s m
  | .ok _ =>
    match historyParsedLimit limitQ, historyParsedOffset offsetQ with
    | some pl, some po =>
      let cappedLimit := min pl 100
      if po < 0 then .err 500 "Failed to get history"
      else
        let page :=
          mongoLimit cappedLimit
            ((sortByTsDesc (store.filter (fun c => c.shortCode == code))).drop po.toNat)
        .ok code (countForCode store code) cappedLimit po (page.map projectClick)
    | _, _ => .err 500 "Failed to get history"

/-! ## Daily route (GET /api/analytics/:shortCode/daily) -/

/-- Milliseconds in one day. -/
def msDay : Int := 24 * 60 * 60 * 1000

/-- UTC calendar-day bucket of a timestamp: the epoch-day index. Models the
`$dateToString {format: '%Y-%m-%d'}` grouping key, which identifies exactly
this bucket (the formatted string is injective per epoch day). -/
def dayKey (ts : Int) : Int := Int.fdiv ts msDay

/-- Insertion sort, ascending, for the day keys (`$sort: {_id: 1}`). -/
def insertIntAsc (k : Int) : List Int → List Int
  | [] => [k]
  | x :: xs => if k ≤ x then k :: x :: xs else x :: insertIntAsc k xs

def sortIntAsc (l : List Int) : List Int :=
  l.foldr insertIntAsc []

/-- Daily route response: the series payload (HTTP 200) or a JSON error.
`data` pairs a day bucket with its click count. -/
inductive DailyResult where
  | ok (shortCode : String) (days : Int) (data : List (Int × Nat))
  | err (status : Nat) (error : String)
deriving Repr, DecidableEq

/-- `const { days = 30 } = req.query` followed by `parseInt(days, 10)`. -/
def dailyParsedDays (daysQ : Option String) : Option Int :=
  match daysQ with
  | none => some 30
  | some s => jsParseInt s

/-- The daily route: `requireAuth`, `cappedDays = Math.min(parseInt(days,10), 90)`,
then the aggregation pipeline: match on shortCode and `timestamp ≥ startDate`,
group by calendar day, sort ascending by day. A `NaN` days value makes the
aggregation fail; the `catch` answers 500. -/
def dailyRoute (jwtSecret : String) (verify : String → VerifyResult)
    (req : Request) (store : List Click) (now : Int) (code : String)
    (daysQ : Option String) : DailyResult :=
  match requireAuth jwtSecret verify req.authorization with
  | .reject s m => .err s m
  | .ok _ =>
    match dailyParsedDays daysQ with
    | none => .err 500 "Failed to get daily stats"
    | some pd =>
      let cappedDays := min pd 90
      let startDate := now - cappedDays * msDay
      let recs := store.filter
        (fun c => c.shortCode == code && startDate ≤ c.timestamp)
      let keys := sortIntAsc ((recs.map (fun c => dayKey c.timestamp)).dedup)
      .ok code cappedDays
        (keys.map (fun k => (k, recs.countP (fun c => dayKey c.timestamp == k))))

/-! ## Geo route (GET /api/analytics/:shortCode/geo) -/

/-- Insertion sort, descending by count (`$sort: {count: -1}`), stable. -/
def insertCountDesc (p : α × Nat) : List (α × Nat) → List (α × Nat)
  | [] => [p]
  | x :: xs => if x.2 ≥ p.2 then x :: insertCountDesc p xs else p :: x :: xs

def sortCountDesc (l : List (α × Nat)) : List (α × Nat) :=
  l.foldr insertCountDesc []

/-- Geo route response: the breakdown payload (HTTP 200) or a JSON error.
`countries` pairs a (country, countryCode) key with its click count;
`cities` pairs a (city, country) key with its click count. -/
inductive GeoResult where
  | ok (shortCode : String) (totalClicks totalWithLocation : Nat)
      (countries : List ((Option String × Option String) × Nat))
      (cities : List ((Option String × Option String) × Nat))
  | err (status : Nat) (error : String)
deriving Repr, DecidableEq

/-- The geo route: `requireAuth`, then the two aggregations (top 20 countries,
top 10 cities among records whose country/city is non-null) and the two
counts. -/
def geoRoute (jwtSecret : String) (verify : String → VerifyResult)
    (req : Request) (store : List Click) (code : String) : GeoResult :=
  match requireAuth jwtSecret verify req.authorization with
  | .reject s m => .err s m
  | .ok _ =>
    let withCountry := store.filter (fun c => c.shortCode == code && c.country.isSome)
    let countryKeys := (withCountry.map (fun c => (c.country, c.countryCode))).dedup
    let countryStats :=
      (sortCountDesc (countryKeys.map (fun k =>
        (k, withCountry.countP (fun c => (c.country, c.countryCode) == k))))).take 20
    let withCity := store.filter (fun c => c.shortCode == code && c.city.isSome)
    let cityKeys := (withCity.map (fun c => (c.city, c.country))).dedup
    let cityStats :=
      (sortCountDesc (cityKeys.map (fun k =>
        (k, withCity.countP (fun c => (c.city, c.country) == k))))).take 10
    let totalWithLocation :=
      store.countP (fun c => c.shortCode == code && c.country.isSome)
    .ok code (countForCode store code) totalWithLocation countryStats cityStats

/-! ## Shared concrete fixtures used by witnesses and counterexamples -/

/-- A `jwt.verify` stub accepting every token as user `user-1`. -/
def verifyAll : String → VerifyResult := fun _ => .ok "user-1"

/-- A request carrying a well-formed bearer token and nothing else. -/
def bearerReq : Request :=
  { authorization := some "Bearer tok", xInternalApiKey := none,
    xForwardedFor := none, userAgent := none, referer := none,
    remoteAddress := none }

/-- A request carrying only the internal service key `"k"`. -/
def internalReq : Request :=
  { authorization := none, xInternalApiKey := some "k", xForwardedFor := none,
    userAgent := none, referer := none, remoteAddress := none }

/-- One stored click for short code `"c"`, with no optional data. -/
def sampleClick : Click :=
  { shortCode := "c", originalUrl := "https://x.com", timestamp := 5,
    userAgent := none, referer := none, ipAddress := none, country := none,
    countryCode := none, city := none, region := none, latitude := none,
    longitude := none, timezone := none }

/-! ## Basic lemmas -/

theorem strIsEmpty_true_iff {s : String} : strIsEmpty s = true ↔ s = "" := by
  cases s with
  | mk data =>
    cases data with
    | nil => simp [strIsEmpty]
    | cons c cs =>
      constructor
      · intro h
        simp [strIsEmpty] at h
      · intro h
        exact absurd (congrArg String.data h) (by simp)

theorem strIsEmpty_false_of_ne {s : String} (h : s ≠ "") : strIsEmpty s = false := by
  cases he : strIsEmpty s
  · rfl
  · exact absurd (strIsEmpty_true_iff.mp he) h

/-! ## C1 -/

/-- C1: a request to the history, daily, or geographic endpoint that carries no
bearer token is answered 401 "Authentication required" with no data, whatever
value (including the valid internal service key) its internal-key header
carries: these routes are guarded by `requireAuth`, which never reads the
internal-key header. -/
theorem user_only_endpoints_401_without_bearer
    (jwtSecret : String) (verify : String → VerifyResult)
    (internalKeyHeader xff ua rf ra : Option String)
    (store : List Click) (code : String) (limitQ offsetQ daysQ : Option String)
    (now : Int) :
    historyRoute jwtSecret verify
        { authorization := none, xInternalApiKey := internalKeyHeader,
          xForwardedFor := xff, userAgent := ua, referer := rf,
          remoteAddress := ra } store code limitQ offsetQ
      = .err 401 "Authentication required" ∧
    dailyRoute jwtSecret verify
        { authorization := none, xInternalApiKey := internalKeyHeader,
          xForwardedFor := xff, userAgent := ua, referer := rf,
          remoteAddress := ra } store now code daysQ
      = .err 401 "Authentication required" ∧
    geoRoute jwtSecret verify
        { authorization := none, xInternalApiKey := internalKeyHeader,
          xForwardedFor := xff, userAgent := ua, referer := rf,
          remoteAddress := ra } store code
      = .err 401 "Authentication required" :=
  ⟨rfl, rfl, rfl⟩

/-! ## C6 -/

/-- C6: each `requireAuth` failure mode yields 401 with the stated message —
absent header or non-bearer-shaped header: "Authentication required"; invalid
signature: "Invalid token"; expired token: "Token expired" — and on success the
decoded user identity is attached. (The secret always being configured is the
hypothesis; config.js supplies a non-empty default.) -/
theorem requireAuth_failure_modes (jwtSecret : String)
    (verify : String → VerifyResult) (hsec : strIsEmpty jwtSecret = false) :
    (requireAuth jwtSecret verify none = .reject 401 "Authentication required") ∧
    (∀ h, strStartsWith h "Bearer " = false →
      requireAuth jwtSecret verify (some h)
        = .reject 401 "Authentication required") ∧
    (∀ h, strStartsWith h "Bearer " = true →
      verify (authToken h) = .invalidToken →
      requireAuth jwtSecret verify (some h) = .reject 401 "Invalid token") ∧
    (∀ h, strStartsWith h "Bearer " = true →
      verify (authToken h) = .expired →
      requireAuth jwtSecret verify (some h) = .reject 401 "Token expired") ∧
    (∀ h uid, strStartsWith h "Bearer " = true →
      verify (authToken h) = .ok uid →
      requireAuth jwtSecret verify (some h) = .ok uid) := by
  refine ⟨rfl, ?_, ?_, ?_, ?_⟩
  · intro h hs
    simp [requireAuth, hs]
  · intro h hs hv
    simp [requireAuth, hs, hsec, hv]
  · intro h hs hv
    simp [requireAuth, hs, hsec, hv]
  · intro h uid hs hv
    simp [requireAuth, hs, hsec, hv]

/-- Witness for C6: with a configured secret, a bearer-shaped header whose
token fails signature verification is rejected 401 "Invalid token". -/
theorem requireAuth_failure_modes_witness :
    requireAuth "secret" (fun _ => VerifyResult.invalidToken)
      (some "Bearer bad") = .reject 401 "Invalid token" :=
  (requireAuth_failure_modes "secret" (fun _ => VerifyResult.invalidToken)
    (by decide)).2.2.1 "Bearer bad" (by decide) rfl

/-! ## C7 -/

/-- C7: `lookupIP` is total (a thrown lookup error is absorbed into a `null`
return) and returns `null` whenever the reader is disabled, the address is
absent or empty, the address is private/loopback (the listed IPv4 ranges, IPv6
loopback and link-local, the literal "localhost"), or the database lookup
throws (in particular when the address is not found). -/
theorem lookupIP_never_raises_null_cases
    (reader : Option (String → Except GeoErr CityResponse))
    (ipAddress : Option String) :
    (reader = none → lookupIP reader ipAddress = none) ∧
    (ipAddress = none → lookupIP reader ipAddress = none) ∧
    (ipAddress = some "" → lookupIP reader ipAddress = none) ∧
    (∀ ip, ipAddress = some ip → isPrivateIP ip = true →
      lookupIP reader ipAddress = none) ∧
    (∀ ip city e, reader = some city → ipAddress = some ip →
      city ip = .error e → lookupIP reader ipAddress = none) ∧
    (∀ ip : String,
      (strStartsWith ip "10." = true ∨
       ranges172.any (fun p => strStartsWith ip p) = true ∨
       strStartsWith ip "192.168." = true ∨
       strStartsWith ip "127." = true ∨
       strToLower ip = "localhost" ∨
       ip = "::1" ∨
       strStartsWith (strToLower ip) "fe80:" = true) →
      isPrivateIP ip = true) := by
  refine ⟨?_, ?_, ?_, ?_, ?_, ?_⟩
  · intro h; subst h; rfl
  · intro h; subst h; cases reader <;> rfl
  · intro h; subst h; cases reader <;> rfl
  · intro ip hip hpriv
    subst hip
    cases reader with
    | none => rfl
    | some city => simp [lookupIP, hpriv]
  · intro ip city e hr hip herr
    subst hr; subst hip
    simp [lookupIP, herr]
  · intro ip hdisj
    rcases hdisj with h | h | h | h | h | h | h <;>
      simp [isPrivateIP, h]

/-- Witness for C7: with a loaded database, the private address 10.0.0.1
resolves to `null`. -/
theorem lookupIP_never_raises_null_cases_witness :
    lookupIP (some (fun _ => Except.error GeoErr.addressNotFound))
      (some "10.0.0.1") = none :=
  (lookupIP_never_raises_null_cases
      (some (fun _ => Except.error GeoErr.addressNotFound))
      (some "10.0.0.1")).2.2.2.1 "10.0.0.1" rfl (by decide)

/-! ## C5 -/

/-- C5: the client address stored on a click is resolved in this order — first
entry of the forwarded-for header if present, else the transport-level peer
address, else null. (Under `app.set('trust proxy', true)`, `req.ip` is already
the first forwarded-for entry when the header is present; headers and peer
addresses, when present, are assumed non-degenerate.) -/
theorem track_ip_resolution_order (req : Request)
    (hx : ∀ h, req.xForwardedFor = some h → firstForwarded h ≠ "")
    (hr : ∀ r, req.remoteAddress = some r → r ≠ "") :
    trackIpAddress req =
      match req.xForwardedFor with
      | some h => some (firstForwarded h)
      | none => req.remoteAddress := by
  rcases req with ⟨auth, key, xff, ua, rf, ra⟩
  cases xff with
  | some h =>
    have hne : strIsEmpty (firstForwarded h) = false :=
      strIsEmpty_false_of_ne (hx h rfl)
    simp [trackIpAddress, expressReqIp, jsOrStr, hne]
  | none =>
    cases ra with
    | none => rfl
    | some r =>
      have hne : strIsEmpty r = false := strIsEmpty_false_of_ne (hr r rfl)
      simp [trackIpAddress, expressReqIp, jsOrStr, hne]

/-- A request carrying a two-entry forwarded-for header and a peer address. -/
def forwardedReq : Request :=
  { authorization := none, xInternalApiKey := none,
    xForwardedFor := some "203.0.113.9, 70.41.3.18", userAgent := none,
    referer := none, remoteAddress := some "198.51.100.7" }

/-- Witness for C5: with both a forwarded-for header and a peer address, the
stored address is the first forwarded-for entry. -/
theorem track_ip_resolution_order_witness :
    trackIpAddress forwardedReq = some "203.0.113.9" :=
  (track_ip_resolution_order forwardedReq
      (by intro h hh; injection hh with hh; subst hh; decide)
      (by intro r hh; injection hh with hh; subst hh; decide)).trans
    (by decide)

/-! ## C8 -/

/-- C8: for a short code with no recorded clicks, the stats endpoint (when the
caller passes access control) answers 200 with all counters zero and
`lastClickAt` null — it has no not-found path. -/
theorem stats_unknown_code_all_zero (internalApiKey jwtSecret : String)
    (verify : String → VerifyResult) (req : Request) (store : List Click)
    (now : Int) (code : String)
    (hacc : ∀ s m,
      allowInternalService internalApiKey jwtSecret verify req ≠ .reject s m)
    (hnone : ∀ c ∈ store, c.shortCode ≠ code) :
    statsRoute internalApiKey jwtSecret verify req store now code
      = .ok code 0 0 0 none := by
  have h1 : countForCode store code = 0 :=
    List.countP_eq_zero.mpr (by intro c hc; simp [hnone c hc])
  have h2 : ∀ since : Int, countForCodeSince store code since = 0 := by
    intro since
    exact List.countP_eq_zero.mpr (by intro c hc; simp [hnone c hc])
  have h3 : store.filter (fun c => c.shortCode == code) = [] :=
    List.filter_eq_nil_iff.mpr (by intro c hc; simp [hnone c hc])
  unfold statsRoute
  cases h : allowInternalService internalApiKey jwtSecret verify req with
  | reject s m => exact absurd h (hacc s m)
  | internal => simp [h1, h2, h3, sortByTsDesc]
  | user u => simp [h1, h2, h3, sortByTsDesc]

/-- Witness for C8: an internal-key caller asking stats for an unseen code
gets the all-zero payload. -/
theorem stats_unknown_code_all_zero_witness :
    statsRoute "k" "s" verifyAll internalReq [] 0 "never-seen"
      = .ok "never-seen" 0 0 0 none := by
  apply stats_unknown_code_all_zero
  · intro s m h
    rw [(by decide :
      allowInternalService "k" "s" verifyAll internalReq
        = AccessOutcome.internal)] at h
    exact AccessOutcome.noConfusion h
  · intro c hc
    exact absurd hc (List.not_mem_nil c)

/-! ## C9 -/

theorem countForCodeSince_antitone (store : List Click) (code : String)
    {a b : Int} (hab : a ≤ b) :
    countForCodeSince store code b ≤ countForCodeSince store code a := by
  apply List.countP_mono_left
  intro c _ hc
  simp only [Bool.and_eq_true, beq_iff_eq, decide_eq_true_eq] at hc ⊢
  exact ⟨hc.1, le_trans hab hc.2⟩

theorem countForCodeSince_le_countForCode (store : List Click) (code : String)
    (since : Int) :
    countForCodeSince store code since ≤ countForCode store code := by
  apply List.countP_mono_left
  intro c _ hc
  simp only [Bool.and_eq_true, beq_iff_eq, decide_eq_true_eq] at hc ⊢
  exact hc.1

/-- C9: whenever the stats endpoint answers, its counters satisfy
`last24Hours ≤ last7Days ≤ totalClicks`: the three counts apply successively
weaker timestamp predicates to the same short code. -/
theorem stats_counters_monotone (internalApiKey jwtSecret : String)
    (verify : String → VerifyResult) (req : Request) (store : List Click)
    (now : Int) (code sc : String) (t h24 h7 : Nat) (lc : Option Int)
    (hok : statsRoute internalApiKey jwtSecret verify req store now code
      = .ok sc t h24 h7 lc) :
    h24 ≤ h7 ∧ h7 ≤ t := by
  have hmono : countForCodeSince store code (now - ms24h)
      ≤ countForCodeSince store code (now - ms7d) := by
    apply countForCodeSince_antitone
    simp [ms24h, ms7d]
    omega
  have hle := countForCodeSince_le_countForCode store code (now - ms7d)
  unfold statsRoute at hok
  cases h : allowInternalService internalApiKey jwtSecret verify req with
  | reject s m => rw [h] at hok; exact absurd hok (by simp)
  | internal =>
    rw [h] at hok
    simp only [StatsResult.ok.injEq] at hok
    obtain ⟨-, ht, h24e, h7e, -⟩ := hok
    subst ht; subst h24e; subst h7e
    exact ⟨hmono, hle⟩
  | user u =>
    rw [h] at hok
    simp only [StatsResult.ok.injEq] at hok
    obtain ⟨-, ht, h24e, h7e, -⟩ := hok
    subst ht; subst h24e; subst h7e
    exact ⟨hmono, hle⟩

/-- Witness for C9: the monotonicity holds for a concrete stats response. -/
theorem stats_counters_monotone_witness : (0 : Nat) ≤ 0 ∧ (0 : Nat) ≤ 0 :=
  stats_counters_monotone "k" "s" verifyAll internalReq [] 0 "x" "x" 0 0 0 none
    (by decide)

/-! ## C10 -/

/-- C10: an ingestion request in which `short_code` or `original_url` is the
empty string fails 400 with the store unchanged, exactly as when the field is
absent (JS falsiness makes `""` and `undefined` indistinguishable here). -/
theorem track_empty_required_field_400
    (reader : Option (String → Except GeoErr CityResponse)) (req : Request)
    (body : TrackBody) (now : Int) (store : List Click)
    (h : body.short_code = some "" ∨ body.original_url = some "") :
    trackHandler reader req body now store
        = (.err 400 "short_code and original_url are required", store) ∧
    trackHandler reader req body now store
        = trackHandler reader req
            { short_code :=
                if body.short_code = some "" then none else body.short_code,
              original_url :=
                if body.original_url = some "" then none else body.original_url }
            now store := by
  rcases h with h | h
  · constructor
    · simp [trackHandler, jsFalsy, h, strIsEmpty]
    · simp [trackHandler, jsFalsy, h, strIsEmpty]
  · constructor
    · simp [trackHandler, jsFalsy, h, strIsEmpty]
    · simp [trackHandler, jsFalsy, h, strIsEmpty]

/-- Witness for C10: a track request with an empty `short_code` is rejected
400 and writes nothing. -/
theorem track_empty_required_field_400_witness :
    trackHandler none bearerReq
        { short_code := some "", original_url := some "https://x.com" } 0 []
      = (.err 400 "short_code and original_url are required", []) ∧
    trackHandler none bearerReq
        { short_code := some "", original_url := some "https://x.com" } 0 []
      = trackHandler none bearerReq
          { short_code :=
              if (some "" : Option String) = some "" then none else some "",
            original_url :=
              if (some "https://x.com" : Option String) = some "" then none
              else some "https://x.com" } 0 [] :=
  track_empty_required_field_400 none bearerReq
    { short_code := some "", original_url := some "https://x.com" } 0 []
    (Or.inl rfl)

/-! ## C2 -/

/-- C2 counterexample: requesting `limit=0` on history echoes `limit = 0`,
which is below the claimed inclusive lower bound 1 (and the returned page,
here of length 1, exceeds that echoed limit, since a MongoDB limit of 0 means
no limit): the code computes `Math.min(parseInt(limit,10), 100)` and never
clamps from below. -/
theorem history_limit_zero_cex :
    historyRoute "secret" verifyAll bearerReq [sampleClick] "c" (some "0") none
      = .ok "c" 1 0 0 [projectClick sampleClick] ∧ ¬((1 : Int) ≤ 0) :=
  ⟨by decide, by decide⟩

/-- C2 amended: the history limit is capped above at 100 only — the echoed
limit is `min(requested, 100)`; when the requested limit is at least 1 the
echoed limit lies in [1,100] and the returned page length is at most the
echoed limit. -/
theorem history_limit_capped_above (jwtSecret : String)
    (verify : String → VerifyResult) (req : Request) (store : List Click)
    (code : String) (limitQ offsetQ : Option String) (uid : String)
    (pl po : Int)
    (hauth : requireAuth jwtSecret verify req.authorization = .ok uid)
    (hl : historyParsedLimit limitQ = some pl) (hpl : 1 ≤ pl)
    (ho : historyParsedOffset offsetQ = some po) (hpo : 0 ≤ po) :
    ∃ page : List ClickProj,
      historyRoute jwtSecret verify req store code limitQ offsetQ
          = .ok code (countForCode store code) (min pl 100) po page ∧
      1 ≤ min pl 100 ∧ min pl 100 ≤ 100 ∧ (page.length : Int) ≤ min pl 100 := by
  have hmin1 : (1 : Int) ≤ min pl 100 := le_min hpl (by norm_num)
  have hneg : ¬ po < 0 := not_lt.mpr hpo
  unfold historyRoute
  rw [hauth, hl, ho]
  simp only [hneg, if_false]
  refine ⟨_, rfl, hmin1, min_le_right _ _, ?_⟩
  have hne : min pl 100 ≠ 0 := by omega
  simp only [mongoLimit, hne, if_false, List.length_map]
  have htake := List.length_take_le (min pl 100).natAbs
    ((sortByTsDesc (store.filter (fun c => c.shortCode == code))).drop po.toNat)
  have hcast : ((min pl 100).natAbs : Int) = min pl 100 := by omega
  omega

/-- Witness for C2 amended: requesting `limit=250` echoes 100 and returns at
most 100 items. -/
theorem history_limit_capped_above_witness :
    ∃ page : List ClickProj,
      historyRoute "secret" verifyAll bearerReq [] "c" (some "250") none
          = .ok "c" (countForCode [] "c") (min 250 100) 0 page ∧
      (1 : Int) ≤ min 250 100 ∧ (min 250 100 : Int) ≤ 100 ∧
      (page.length : Int) ≤ min 250 100 :=
  history_limit_capped_above "secret" verifyAll bearerReq [] "c" (some "250")
    none "user-1" 250 0 (by decide) (by decide) (by decide) (by decide)
    (by decide)

/-! ## C3 -/

/-- C3 counterexample: requesting `days=0` on the daily series echoes
`days = 0`, below the claimed inclusive lower bound 1: the code computes
`Math.min(parseInt(days,10), 90)` and never clamps from below. -/
theorem daily_days_zero_cex :
    dailyRoute "secret" verifyAll bearerReq [] 0 "c" (some "0")
      = .ok "c" 0 [] ∧ ¬((1 : Int) ≤ 0) :=
  ⟨by decide, by decide⟩

/-- C3 amended: the daily `days` value is capped above at 90 only — the echoed
days value is `min(requested, 90)`; when the requested value is at least 1 the
echoed value lies in [1,90]. -/
theorem daily_days_capped_above (jwtSecret : String)
    (verify : String → VerifyResult) (req : Request) (store : List Click)
    (now : Int) (code : String) (daysQ : Option String) (uid : String)
    (pd : Int)
    (hauth : requireAuth jwtSecret verify req.authorization = .ok uid)
    (hd : dailyParsedDays daysQ = some pd) (hpd : 1 ≤ pd) :
    ∃ data : List (Int × Nat),
      dailyRoute jwtSecret verify req store now code daysQ
          = .ok code (min pd 90) data ∧
      1 ≤ min pd 90 ∧ min pd 90 ≤ 90 := by
  unfold dailyRoute
  rw [hauth, hd]
  exact ⟨_, rfl, le_min hpd (by norm_num), min_le_right _ _⟩

/-- Witness for C3 amended: requesting `days=200` echoes 90. -/
theorem daily_days_capped_above_witness :
    ∃ data : List (Int × Nat),
      dailyRoute "secret" verifyAll bearerReq [] 0 "c" (some "200")
          = .ok "c" (min 200 90) data ∧
      (1 : Int) ≤ min 200 90 ∧ (min 200 90 : Int) ≤ 90 :=
  daily_days_capped_above "secret" verifyAll bearerReq [] 0 "c" (some "200")
    "user-1" 200 (by decide) (by decide) (by decide)

/-! ## C4 -/

/-- A city lookup answering with a country but no city, as the source
database may for any address it only partially covers. -/
def mixedCityFn : String → Except GeoErr CityResponse := fun _ =>
  .ok { countryNameEn := some "Testland", countryIsoCode := some "TL",
        cityNameEn := none, subdivisionNameEn := none, locLatitude := none,
        locLongitude := none, locTimeZone := some "Etc/UTC" }

/-- A request from a public address (via the forwarded-for header). -/
def publicIpReq : Request :=
  { authorization := none, xInternalApiKey := some "k",
    xForwardedFor := some "203.0.113.5", userAgent := none, referer := none,
    remoteAddress := none }

/-- The click the track handler persists for `publicIpReq` under
`mixedCityFn`: its country is set while its city is null. -/
def mixedGeoClick : Click :=
  buildClick "abc" "https://x.com" publicIpReq
    (lookupIP (some mixedCityFn) (trackIpAddress publicIpReq)) 1000

/-- C4 counterexample: an ingestion whose resolver response carries a country
but no city persists a record with `country` non-null and `city` null — a
partial geolocation tuple, refuting the all-or-nothing claim. -/
theorem click_partial_geolocation_cex :
    (trackHandler (some mixedCityFn) publicIpReq
        { short_code := some "abc", original_url := some "https://x.com" }
        1000 []).2
      = [mixedGeoClick] ∧
    mixedGeoClick.country = some "Testland" ∧ mixedGeoClick.city = none :=
  ⟨by decide, by decide, by decide⟩

/-- C4 amended: a resolver miss (`lookupIP` returning null) persists a record
with all seven geolocation attributes null; when the resolver returns a
structure, the seven attributes are written independently, each individually
nullable, so a record may have some set and others null. -/
theorem track_resolver_miss_all_null
    (reader : Option (String → Except GeoErr CityResponse)) (req : Request)
    (sc ou : String) (now : Int) (store : List Click)
    (hsc : strIsEmpty sc = false) (hou : strIsEmpty ou = false)
    (hmiss : lookupIP reader (trackIpAddress req) = none) :
    ∃ c : Click,
      trackHandler reader req { short_code := some sc, original_url := some ou }
          now store
        = (.created c, store ++ [c]) ∧
      c.country = none ∧ c.countryCode = none ∧ c.city = none ∧
      c.region = none ∧ c.latitude = none ∧ c.longitude = none ∧
      c.timezone = none := by
  simp only [trackHandler, jsFalsy, hsc, hou, Bool.or_self, if_false,
    Option.getD_some, hmiss]
  exact ⟨_, rfl, rfl, rfl, rfl, rfl, rfl, rfl, rfl⟩

/-- Witness for C4 amended: with the resolver disabled, a tracked click has
every geolocation attribute null. -/
theorem track_resolver_miss_all_null_witness :
    ∃ c : Click,
      trackHandler none bearerReq
          { short_code := some "abc", original_url := some "https://x.com" }
          0 []
        = (.created c, [] ++ [c]) ∧
      c.country = none ∧ c.countryCode = none ∧ c.city = none ∧
      c.region = none ∧ c.latitude = none ∧ c.longitude = none ∧
      c.timezone = none :=
  track_resolver_miss_all_null none bearerReq "abc" "https://x.com" 0 []
    (by decide) (by decide) rfl

end Analytics
